import Mathlib

/-
Verification development for the star-fee-distribution program.

The definitions below are a shallow embedding of the Rust sources under
src/programs/star-fee-distribution/src/.  Machine integers (u16/u32/u64) are
modelled as Nat together with explicit bounds U16/U32/U64; every Rust
`checked_add`/`checked_sub` becomes an explicit bound test returning
`Except ErrorCode`; the `as u16` / `as u64` narrowing casts become `% U16` /
`% U64`.  Timestamps (i64) are modelled as mathematical integers `Int`;
the programs only subtract and compare nearby clock values, far from i64
range.  SPL token transfers are modelled by their balance effect: a transfer
of `amount` from a vault fails exactly when the vault holds less than
`amount`, otherwise it debits the vault.  Solana account plumbing (PDA seeds,
bumps, signers) is out of scope; account constraints that compare keys are
modelled as explicit Nat-valued key parameters.
-/

namespace StarFee

/-- Error codes from src/errors.rs (the subset reachable from the embedded
instructions). -/
inductive ErrorCode where
  | NoFeesToClaim
  | InvalidPosition
  | InvalidDepositAmount
  | MathOverflow
  | DistributionTooFrequent
  | BaseFeesDetected
  | DailyCapExceeded
  | InvalidPaginationCursor
  | DayAlreadyClosed
  | DistributionNotStarted
  | InvalidY0Allocation
  | CreatorWalletNotProvided
  | InsufficientTokenBalance
  deriving DecidableEq, Repr

/-- Bound of u16: values of a Rust u16 are below this. -/
def U16 : Nat := 2 ^ 16

/-- Bound of u32. -/
def U32 : Nat := 2 ^ 32

/-- Bound of u64. -/
def U64 : Nat := 2 ^ 64

/-- DistributionConfig account from src/states/distribution_config.rs.
Pubkeys are modelled as Nat identifiers; the PDA bump is plumbing and
omitted. -/
structure DistributionConfig where
  y0_allocation : Nat
  investor_fee_share_bps : Nat
  min_payout_lamports : Nat
  daily_cap_lamports : Nat
  creator_wallet : Nat
  quote_mint : Nat
  deriving DecidableEq, Repr

/-- CrankState account from src/states/crank_state.rs.
day_state: 0 = not started, 1 = in progress, 2 = closed (as in the source
comment).  The PDA bump is omitted. -/
structure CrankState where
  last_distribution_timestamp : Int
  current_day : Nat
  distribution_count : Nat
  pagination_cursor : Nat
  investors_processed_today : Nat
  daily_distributed : Nat
  carry_over : Nat
  day_state : Nat
  deriving DecidableEq, Repr

/-- CrankState::is_day_in_progress. -/
def CrankState.is_day_in_progress (s : CrankState) : Bool :=
  s.day_state == 1

/-- CrankState::is_day_closed. -/
def CrankState.is_day_closed (s : CrankState) : Bool :=
  s.day_state == 2

/-- CrankState::can_start_new_day: 24 hours (86400 s) elapsed since the last
distribution, or the very first cycle (timestamp still 0). -/
def CrankState.can_start_new_day (s : CrankState) (now : Int) : Bool :=
  decide (86400 ≤ now - s.last_distribution_timestamp)
    || (s.last_distribution_timestamp == 0)

/-- CrankState::start_new_day.  The `current_day.checked_add(1)` of the source
is the explicit `< U32` test; on overflow the whole call fails (the Rust `?`
aborts the transaction, rolling back the earlier field write). -/
def CrankState.start_new_day (s : CrankState) (now : Int) :
    Except ErrorCode CrankState :=
  if s.can_start_new_day now then
    if s.current_day + 1 < U32 then
      .ok { s with
        last_distribution_timestamp := now
        current_day := s.current_day + 1
        pagination_cursor := 0
        investors_processed_today := 0
        daily_distributed := 0
        day_state := 1 }
    else .error .MathOverflow
  else .error .DistributionTooFrequent

/-- CrankState::advance_cursor: two u32 checked additions. -/
def CrankState.advance_cursor (s : CrankState) (investors_processed : Nat) :
    Except ErrorCode CrankState :=
  if s.pagination_cursor + 1 < U32 then
    if s.investors_processed_today + investors_processed < U32 then
      .ok { s with
        pagination_cursor := s.pagination_cursor + 1
        investors_processed_today :=
          s.investors_processed_today + investors_processed }
    else .error .MathOverflow
  else .error .MathOverflow

/-- CrankState::close_day: sets day_state to 2 and bumps the lifetime
distribution_count with a u32 checked addition. -/
def CrankState.close_day (s : CrankState) : Except ErrorCode CrankState :=
  if s.distribution_count + 1 < U32 then
    .ok { s with day_state := 2, distribution_count := s.distribution_count + 1 }
  else .error .MathOverflow

/-- The all-zero CrankState written by the init-if-needed block of
CrankFeeDistribution::handle (lines 102-112 of crank_fee_distribution.rs). -/
def CrankState.fresh : CrankState :=
  { last_distribution_timestamp := 0
    current_day := 0
    distribution_count := 0
    pagination_cursor := 0
    investors_processed_today := 0
    daily_distributed := 0
    carry_over := 0
    day_state := 0 }

/-- DistributionParams argument of the crank instruction. -/
structure DistributionParams where
  page_index : Nat
  investors_count : Nat
  is_final_page : Bool
  deriving DecidableEq, Repr

/-- The InvestorPayoutPage event emitted by CrankFeeDistribution::handle,
carrying every quantity of the page computation (src/events.rs). -/
structure InvestorPayoutPage where
  day : Nat
  page_index : Nat
  investors_count : Nat
  total_investors_processed_today : Nat
  quote_fees_available : Nat
  total_locked : Nat
  y0_allocation : Nat
  f_locked_bps : Nat
  eligible_investor_share_bps : Nat
  investor_fee_quote : Nat
  page_distributed : Nat
  carry_over : Nat
  daily_distributed : Nat
  daily_cap : Nat
  is_final_page : Bool
  timestamp : Int
  deriving DecidableEq, Repr

/-- The init-if-needed re-initialization at the top of
CrankFeeDistribution::handle, keyed on last_distribution_timestamp == 0. -/
def reinit (cs0 : CrankState) : CrankState :=
  if cs0.last_distribution_timestamp = 0 then CrankState.fresh else cs0

/-- f_locked_bps of the page computation: u128 multiply/divide, then the
`as u16` narrowing cast. -/
def pageFLockedBps (locked_total y0 : Nat) : Nat :=
  if 0 < y0 then locked_total * 10000 / y0 % U16 else 0

/-- eligible_investor_share_bps = min(investor_fee_share_bps, f_locked_bps). -/
def pageEligibleBps (config : DistributionConfig) (locked_total : Nat) : Nat :=
  min config.investor_fee_share_bps
    (pageFLockedBps locked_total config.y0_allocation)

/-- investor_fee_quote of the page computation: u128 multiply/divide, then
the `as u64` narrowing cast. -/
def pageInvestorFeeQuote (config : DistributionConfig)
    (locked_total quote_fees : Nat) : Nat :=
  quote_fees * pageEligibleBps config locked_total / 10000 % U64

/-- The InvestorPayoutPage event as emitted at the end of a successful page
call, with cs3 the already-advanced crank state. -/
def mkPageEvent (config : DistributionConfig) (cs3 : CrankState)
    (locked_total quote_fees : Nat) (params : DistributionParams)
    (now : Int) : InvestorPayoutPage :=
  { day := cs3.current_day
    page_index := params.page_index
    investors_count := params.investors_count
    total_investors_processed_today := cs3.investors_processed_today
    quote_fees_available := quote_fees
    total_locked := locked_total
    y0_allocation := config.y0_allocation
    f_locked_bps := pageFLockedBps locked_total config.y0_allocation
    eligible_investor_share_bps := pageEligibleBps config locked_total
    investor_fee_quote := pageInvestorFeeQuote config locked_total quote_fees
    page_distributed := 0
    carry_over := cs3.carry_over
    daily_distributed := cs3.daily_distributed
    daily_cap := config.daily_cap_lamports
    is_final_page := params.is_final_page
    timestamp := now }

/-- Tail of the page call: advance the cursor and emit the event. -/
def pageAdvance (config : DistributionConfig) (cs2 : CrankState)
    (locked_total quote_fees : Nat) (params : DistributionParams)
    (now : Int) : Except ErrorCode (CrankState × InvestorPayoutPage) :=
  match cs2.advance_cursor params.investors_count with
  | .error e => .error e
  | .ok cs3 => .ok (cs3, mkPageEvent config cs3 locked_total quote_fees params now)

/-- CrankFeeDistribution::handle (crank_fee_distribution.rs lines 94-226).
Inputs beyond the accounts' persisted state: `locked_total` is
vault_stats.current_total_usdc, `base_fees`/`quote_fees` are the two fee
vault balances, `quote_mint_key` the key of the passed quote mint account,
`now` the clock.  Returns the updated CrankState and the emitted event. -/
def crankHandle (config : DistributionConfig) (cs0 : CrankState)
    (locked_total base_fees quote_fees quote_mint_key : Nat)
    (params : DistributionParams) (now : Int) :
    Except ErrorCode (CrankState × InvestorPayoutPage) :=
  -- start a new day if needed; a closed day is rejected outright
  match (if (reinit cs0).is_day_in_progress then Except.ok (reinit cs0)
         else if (reinit cs0).is_day_closed then
           Except.error ErrorCode.DayAlreadyClosed
         else (reinit cs0).start_new_day now) with
  | .error e => .error e
  | .ok cs2 =>
    if params.page_index ≠ cs2.pagination_cursor then
      .error .InvalidPaginationCursor
    else if base_fees ≠ 0 then .error .BaseFeesDetected
    else if quote_fees = 0 then .error .NoFeesToClaim
    else if quote_mint_key ≠ config.quote_mint then .error .InvalidPosition
    -- total_distributable = investor_fee_quote.checked_add(carry_over)?
    else if pageInvestorFeeQuote config locked_total quote_fees
        + cs2.carry_over < U64 then
      -- daily cap pre-check: checked_sub mapped to DailyCapExceeded,
      -- then require remaining_cap > 0
      if 0 < config.daily_cap_lamports then
        if cs2.daily_distributed ≤ config.daily_cap_lamports then
          if 0 < config.daily_cap_lamports - cs2.daily_distributed then
            pageAdvance config cs2 locked_total quote_fees params now
          else .error .DailyCapExceeded
        else .error .DailyCapExceeded
      else pageAdvance config cs2 locked_total quote_fees params now
    else .error .MathOverflow

/-- weight_bps of calculate_investor_payout: u128 multiply/divide, then the
`as u64` narrowing cast; 0 when nothing is locked. -/
def weight_bps_of (investor_balance total_locked : Nat) : Nat :=
  if 0 < total_locked then investor_balance * 10000 / total_locked % U64
  else 0

/-- payout of calculate_investor_payout before the dust threshold: u128
multiply/divide, then the `as u64` narrowing cast. -/
def payout_of (total_investor_fee weight_bps : Nat) : Nat :=
  total_investor_fee * weight_bps / 10000 % U64

/-- calculate_investor_payout (crank_fee_distribution.rs lines 230-255).
The Rust function returns Result but has no failure path.  Returns
(actual_payout, dust): a computed payout below min_payout is suppressed to 0
and returned entirely as dust. -/
def calculate_investor_payout
    (investor_balance total_locked total_investor_fee min_payout : Nat) :
    Nat × Nat :=
  if payout_of total_investor_fee (weight_bps_of investor_balance total_locked)
      < min_payout then
    (0, payout_of total_investor_fee (weight_bps_of investor_balance total_locked))
  else
    (payout_of total_investor_fee (weight_bps_of investor_balance total_locked), 0)

/-- Result of DistributeToInvestor::handle: updated crank state, updated
quote-vault balance, the transferred payout and the recorded dust. -/
structure DistOut where
  crank : CrankState
  vault : Nat
  payout : Nat
  dust : Nat
  deriving DecidableEq, Repr

/-- Payment phase of DistributeToInvestor::handle: when the payout is
positive, the daily-cap check (new_total = daily_distributed.checked_add,
require new_total <= cap), the SPL transfer of `payout` from the vault, and
the checked update of daily_distributed (recomputed in the source). -/
def payPhase (config : DistributionConfig) (cs : CrankState)
    (vault payout : Nat) : Except ErrorCode (CrankState × Nat) :=
  if 0 < payout then
    if 0 < config.daily_cap_lamports then
      if cs.daily_distributed + payout < U64 then
        if cs.daily_distributed + payout ≤ config.daily_cap_lamports then
          if payout ≤ vault then
            .ok ({ cs with daily_distributed := cs.daily_distributed + payout },
                 vault - payout)
          else .error .InsufficientTokenBalance
        else .error .DailyCapExceeded
      else .error .MathOverflow
    else
      if payout ≤ vault then
        if cs.daily_distributed + payout < U64 then
          .ok ({ cs with daily_distributed := cs.daily_distributed + payout },
               vault - payout)
        else .error .MathOverflow
      else .error .InsufficientTokenBalance
  else .ok (cs, vault)

/-- Dust phase of DistributeToInvestor::handle: a positive dust amount is
added to carry_over with a checked u64 addition. -/
def dustPhase (cs : CrankState) (vault : Nat) (pd : Nat × Nat) :
    Except ErrorCode DistOut :=
  if 0 < pd.2 then
    if cs.carry_over + pd.2 < U64 then
      .ok { crank := { cs with carry_over := cs.carry_over + pd.2 }
            vault := vault, payout := pd.1, dust := pd.2 }
    else .error .MathOverflow
  else .ok { crank := cs, vault := vault, payout := pd.1, dust := pd.2 }

/-- DistributeToInvestor::handle (crank_fee_distribution.rs lines 331-437).
`investor_balance` is depositor_record.current_usdc_balance, `total_locked`
is vault_stats.current_total_usdc, `vault` the quote fee-vault balance and
`total_investor_fee` the caller-supplied frozen pool for the day. -/
def distributeToInvestor (config : DistributionConfig) (cs : CrankState)
    (investor_balance total_locked vault total_investor_fee : Nat) :
    Except ErrorCode DistOut :=
  if cs.is_day_in_progress then
    match payPhase config cs vault
        (calculate_investor_payout investor_balance total_locked
          total_investor_fee config.min_payout_lamports).1 with
    | .error e => .error e
    | .ok (cs', vault') =>
      dustPhase cs' vault'
        (calculate_investor_payout investor_balance total_locked
          total_investor_fee config.min_payout_lamports)
  else .error .DistributionNotStarted

/-- RouteCreatorRemainder::handle (crank_fee_distribution.rs lines 491-550).
The entire remaining vault balance is transferred to the creator (a
full-balance transfer always has sufficient funds), then the day is closed.
Returns (new crank state, new vault balance, creator remainder). -/
def routeCreatorRemainder (cs : CrankState) (vault : Nat) :
    Except ErrorCode (CrankState × Nat × Nat) :=
  if cs.is_day_in_progress then
    match cs.close_day with
    | .error e => .error e
    | .ok cs' => .ok (cs', 0, vault)
  else .error .DistributionNotStarted

/-- DEFAULT_MIN_PAYOUT_LAMPORTS from src/constants.rs. -/
def DEFAULT_MIN_PAYOUT_LAMPORTS : Nat := 10000

/-- Parameters of InitializeDistributionConfig. -/
structure InitializeDistributionConfigParams where
  y0_allocation : Nat
  investor_fee_share_bps : Nat
  min_payout_lamports : Nat
  daily_cap_lamports : Nat
  creator_wallet : Nat
  quote_mint : Nat
  deriving DecidableEq, Repr

/-- InitializeDistributionConfig::handle
(initialize_distribution_config.rs lines 44-116).  Pubkey::default() is the
0 key in the Nat model. -/
def initializeDistributionConfig (p : InitializeDistributionConfigParams) :
    Except ErrorCode DistributionConfig :=
  if p.y0_allocation = 0 then .error .InvalidY0Allocation
  else if 10000 < p.investor_fee_share_bps then .error .InvalidDepositAmount
  else if p.creator_wallet = 0 then .error .CreatorWalletNotProvided
  else if p.quote_mint = 0 then .error .InvalidPosition
  else
    .ok { y0_allocation := p.y0_allocation
          investor_fee_share_bps := p.investor_fee_share_bps
          min_payout_lamports :=
            if p.min_payout_lamports = 0 then DEFAULT_MIN_PAYOUT_LAMPORTS
            else p.min_payout_lamports
          daily_cap_lamports := p.daily_cap_lamports
          creator_wallet := p.creator_wallet
          quote_mint := p.quote_mint }

/-- True exactly when the computation failed. -/
def isErr {α : Type} (x : Except ErrorCode α) : Bool :=
  match x with
  | .ok _ => false
  | .error _ => true

/-- Concrete configuration for the closed-day scenario. -/
def c1cfg : DistributionConfig :=
  { y0_allocation := 1000, investor_fee_share_bps := 5000,
    min_payout_lamports := 1, daily_cap_lamports := 0,
    creator_wallet := 1, quote_mint := 7 }

/-- A crank state whose day is Closed, last opened at time 1000. -/
def c1cs : CrankState :=
  { last_distribution_timestamp := 1000, current_day := 3,
    distribution_count := 3, pagination_cursor := 0,
    investors_processed_today := 0, daily_distributed := 0,
    carry_over := 0, day_state := 2 }

/-- Configuration for the conservation scenario: full investor share,
min_payout 50, no cap. -/
def c2cfg : DistributionConfig :=
  { y0_allocation := 1000, investor_fee_share_bps := 10000,
    min_payout_lamports := 50, daily_cap_lamports := 0,
    creator_wallet := 1, quote_mint := 7 }

/-- Crank state right after the conservation day opens (one accepted page). -/
def c2cs1 : CrankState :=
  { last_distribution_timestamp := 100, current_day := 1,
    distribution_count := 0, pagination_cursor := 1,
    investors_processed_today := 1, daily_distributed := 0,
    carry_over := 0, day_state := 1 }

/-- Event emitted by the conservation day's page call. -/
def c2ev : InvestorPayoutPage :=
  { day := 1, page_index := 0, investors_count := 1,
    total_investors_processed_today := 1, quote_fees_available := 100,
    total_locked := 1000, y0_allocation := 1000, f_locked_bps := 10000,
    eligible_investor_share_bps := 10000, investor_fee_quote := 100,
    page_distributed := 0, carry_over := 0, daily_distributed := 0,
    daily_cap := 0, is_final_page := true, timestamp := 100 }

/-- Crank state after the single dust-suppressed payout of the
conservation day. -/
def c2cs2 : CrankState :=
  { last_distribution_timestamp := 100, current_day := 1,
    distribution_count := 0, pagination_cursor := 1,
    investors_processed_today := 1, daily_distributed := 0,
    carry_over := 10, day_state := 1 }

/-- Crank state after the conservation day closes. -/
def c2cs3 : CrankState :=
  { last_distribution_timestamp := 100, current_day := 1,
    distribution_count := 1, pagination_cursor := 1,
    investors_processed_today := 1, daily_distributed := 0,
    carry_over := 10, day_state := 2 }

/-- Configuration with y0_allocation 1, used to exhibit the u16 wrap of
f_locked_bps. -/
def c3xcfg : DistributionConfig :=
  { y0_allocation := 1, investor_fee_share_bps := 10000,
    min_payout_lamports := 1, daily_cap_lamports := 0,
    creator_wallet := 1, quote_mint := 7 }

/-- An in-progress crank state at cursor 0, opened at time 10. -/
def c3xcs : CrankState :=
  { last_distribution_timestamp := 10, current_day := 1,
    distribution_count := 0, pagination_cursor := 0,
    investors_processed_today := 0, daily_distributed := 0,
    carry_over := 0, day_state := 1 }

/-- Crank state after the wrap-exhibiting page call. -/
def c3xcs' : CrankState :=
  { last_distribution_timestamp := 10, current_day := 1,
    distribution_count := 0, pagination_cursor := 1,
    investors_processed_today := 1, daily_distributed := 0,
    carry_over := 0, day_state := 1 }

/-- Event of the wrap-exhibiting page call: f_locked_bps wrapped to 4464. -/
def c3xev : InvestorPayoutPage :=
  { day := 1, page_index := 0, investors_count := 1,
    total_investors_processed_today := 1, quote_fees_available := 10,
    total_locked := 7, y0_allocation := 1, f_locked_bps := 4464,
    eligible_investor_share_bps := 4464, investor_fee_quote := 4,
    page_distributed := 0, carry_over := 0, daily_distributed := 0,
    daily_cap := 0, is_final_page := false, timestamp := 20 }

/-- Configuration for a nominal in-range page computation. -/
def c3wcfg : DistributionConfig :=
  { y0_allocation := 1000, investor_fee_share_bps := 10000,
    min_payout_lamports := 1, daily_cap_lamports := 0,
    creator_wallet := 1, quote_mint := 7 }

/-- Crank state after the nominal page call. -/
def c3wcs' : CrankState :=
  { last_distribution_timestamp := 10, current_day := 1,
    distribution_count := 0, pagination_cursor := 1,
    investors_processed_today := 1, daily_distributed := 0,
    carry_over := 0, day_state := 1 }

/-- Event of the nominal page call: f_locked_bps = 5000 untruncated. -/
def c3wev : InvestorPayoutPage :=
  { day := 1, page_index := 0, investors_count := 1,
    total_investors_processed_today := 1, quote_fees_available := 100,
    total_locked := 500, y0_allocation := 1000, f_locked_bps := 5000,
    eligible_investor_share_bps := 5000, investor_fee_quote := 50,
    page_distributed := 0, carry_over := 0, daily_distributed := 0,
    daily_cap := 0, is_final_page := false, timestamp := 600 }

/-- Configuration whose daily cap is u64::MAX. -/
def c4xcfg : DistributionConfig :=
  { y0_allocation := 1, investor_fee_share_bps := 10000,
    min_payout_lamports := 1, daily_cap_lamports := 18446744073709551615,
    creator_wallet := 1, quote_mint := 7 }

/-- In-progress state with daily_distributed = u64::MAX, equal to the cap. -/
def c4xcs : CrankState :=
  { last_distribution_timestamp := 10, current_day := 1,
    distribution_count := 0, pagination_cursor := 1,
    investors_processed_today := 1,
    daily_distributed := 18446744073709551615,
    carry_over := 0, day_state := 1 }

/-- Configuration with a small positive daily cap. -/
def c4wcfg : DistributionConfig :=
  { y0_allocation := 1000, investor_fee_share_bps := 10000,
    min_payout_lamports := 1, daily_cap_lamports := 10,
    creator_wallet := 1, quote_mint := 7 }

/-- A closed day that satisfies the cap invariant, eligible to reopen. -/
def c4wcs : CrankState :=
  { last_distribution_timestamp := 1000, current_day := 2,
    distribution_count := 2, pagination_cursor := 4,
    investors_processed_today := 9, daily_distributed := 8,
    carry_over := 3, day_state := 2 }

/-- The state c4wcs.start_new_day 90000 produces. -/
def c4wopen : CrankState :=
  { last_distribution_timestamp := 90000, current_day := 3,
    distribution_count := 2, pagination_cursor := 0,
    investors_processed_today := 0, daily_distributed := 0,
    carry_over := 3, day_state := 1 }

/-- Configuration for the zero-timestamp pagination scenario. -/
def c5xcfg : DistributionConfig :=
  { y0_allocation := 10, investor_fee_share_bps := 5000,
    min_payout_lamports := 1, daily_cap_lamports := 0,
    creator_wallet := 1, quote_mint := 7 }

/-- An in-progress crank state at cursor 5 whose last_distribution_timestamp
is 0 (the sentinel the handler treats as uninitialized). -/
def c5xcs : CrankState :=
  { last_distribution_timestamp := 0, current_day := 9,
    distribution_count := 3, pagination_cursor := 5,
    investors_processed_today := 50, daily_distributed := 123,
    carry_over := 11, day_state := 1 }

/-- Crank state produced when the handler re-initializes c5xcs and accepts
page 0. -/
def c5xcs' : CrankState :=
  { last_distribution_timestamp := 777, current_day := 1,
    distribution_count := 0, pagination_cursor := 1,
    investors_processed_today := 2, daily_distributed := 0,
    carry_over := 0, day_state := 1 }

/-- Event of the page call accepted after re-initialization of c5xcs. -/
def c5xev : InvestorPayoutPage :=
  { day := 1, page_index := 0, investors_count := 2,
    total_investors_processed_today := 2, quote_fees_available := 40,
    total_locked := 5, y0_allocation := 10, f_locked_bps := 5000,
    eligible_investor_share_bps := 5000, investor_fee_quote := 20,
    page_distributed := 0, carry_over := 0, daily_distributed := 0,
    daily_cap := 0, is_final_page := false, timestamp := 777 }

/-- Configuration for the cursor-mismatch witness. -/
def c5wcfg : DistributionConfig :=
  { y0_allocation := 10, investor_fee_share_bps := 5000,
    min_payout_lamports := 1, daily_cap_lamports := 0,
    creator_wallet := 1, quote_mint := 7 }

/-- An in-progress day, opened at time 500, currently at cursor 2. -/
def c5wcs : CrankState :=
  { last_distribution_timestamp := 500, current_day := 4,
    distribution_count := 3, pagination_cursor := 2,
    investors_processed_today := 20, daily_distributed := 0,
    carry_over := 0, day_state := 1 }

/-- A state whose current_day is u32::MAX, with cooldown elapsed at 87400. -/
def c6xcs : CrankState :=
  { last_distribution_timestamp := 1000, current_day := 4294967295,
    distribution_count := 0, pagination_cursor := 0,
    investors_processed_today := 0, daily_distributed := 0,
    carry_over := 0, day_state := 0 }

/-- A not-started state last distributed at time 1000. -/
def c6wcs : CrankState :=
  { last_distribution_timestamp := 1000, current_day := 0,
    distribution_count := 0, pagination_cursor := 0,
    investors_processed_today := 0, daily_distributed := 0,
    carry_over := 0, day_state := 0 }

/-- The state c6wcs.start_new_day 87400 produces. -/
def c6wopen : CrankState :=
  { last_distribution_timestamp := 87400, current_day := 1,
    distribution_count := 0, pagination_cursor := 0,
    investors_processed_today := 0, daily_distributed := 0,
    carry_over := 0, day_state := 1 }

/-- Configuration with daily cap 50 and min_payout 1. -/
def c8xcfg : DistributionConfig :=
  { y0_allocation := 1, investor_fee_share_bps := 10000,
    min_payout_lamports := 1, daily_cap_lamports := 50,
    creator_wallet := 1, quote_mint := 7 }

/-- An in-progress day with nothing distributed yet. -/
def c8xcs : CrankState :=
  { last_distribution_timestamp := 10, current_day := 1,
    distribution_count := 0, pagination_cursor := 1,
    investors_processed_today := 1, daily_distributed := 0,
    carry_over := 0, day_state := 1 }

/-- Configuration for the dust-path witness: min_payout 50, no cap. -/
def c8wcfg : DistributionConfig :=
  { y0_allocation := 1000, investor_fee_share_bps := 10000,
    min_payout_lamports := 50, daily_cap_lamports := 0,
    creator_wallet := 1, quote_mint := 7 }

/-- An in-progress day with carry_over 1. -/
def c8wcs : CrankState :=
  { last_distribution_timestamp := 100, current_day := 1,
    distribution_count := 0, pagination_cursor := 1,
    investors_processed_today := 1, daily_distributed := 0,
    carry_over := 1, day_state := 1 }

/-- Result of the dust-path distribute call on c8wcs. -/
def c8wout : DistOut :=
  { crank :=
      { last_distribution_timestamp := 100, current_day := 1,
        distribution_count := 0, pagination_cursor := 1,
        investors_processed_today := 1, daily_distributed := 0,
        carry_over := 11, day_state := 1 }
    vault := 100, payout := 0, dust := 10 }

/-- Configuration for the no-fees scenario. -/
def c9cfg : DistributionConfig :=
  { y0_allocation := 1000, investor_fee_share_bps := 5000,
    min_payout_lamports := 1, daily_cap_lamports := 0,
    creator_wallet := 1, quote_mint := 7 }

/-- An in-progress day at cursor 0 for the no-fees scenario. -/
def c9cs : CrankState :=
  { last_distribution_timestamp := 400, current_day := 1,
    distribution_count := 0, pagination_cursor := 0,
    investors_processed_today := 0, daily_distributed := 0,
    carry_over := 0, day_state := 1 }

/-- Initialization parameters requesting min_payout_lamports = 0. -/
def c10p : InitializeDistributionConfigParams :=
  { y0_allocation := 5, investor_fee_share_bps := 5000,
    min_payout_lamports := 0, daily_cap_lamports := 0,
    creator_wallet := 3, quote_mint := 9 }

/-- The configuration stored for c10p: the default min payout applies. -/
def c10cfg : DistributionConfig :=
  { y0_allocation := 5, investor_fee_share_bps := 5000,
    min_payout_lamports := 10000, daily_cap_lamports := 0,
    creator_wallet := 3, quote_mint := 9 }

/-- A successful start_new_day yields exactly the reset-and-opened state. -/
theorem start_new_day_ok {s : CrankState} {now : Int} {t : CrankState}
    (h : s.start_new_day now = .ok t) :
    t = { s with last_distribution_timestamp := now
                 current_day := s.current_day + 1
                 pagination_cursor := 0
                 investors_processed_today := 0
                 daily_distributed := 0
                 day_state := 1 } := by
  unfold CrankState.start_new_day at h
  split at h
  · split at h
    · exact (Except.ok.inj h).symm
    · exact absurd h (by simp)
  · exact absurd h (by simp)

/-- A successful advance_cursor bumps the cursor by one and the processed
count by the page's investor count, leaving everything else unchanged. -/
theorem advance_cursor_ok {s : CrankState} {n : Nat} {t : CrankState}
    (h : s.advance_cursor n = .ok t) :
    t = { s with pagination_cursor := s.pagination_cursor + 1
                 investors_processed_today :=
                   s.investors_processed_today + n } := by
  unfold CrankState.advance_cursor at h
  split at h
  · split at h
    · exact (Except.ok.inj h).symm
    · exact absurd h (by simp)
  · exact absurd h (by simp)

/-- A successful close_day sets day_state to 2 and bumps distribution_count,
leaving everything else unchanged. -/
theorem close_day_ok {s t : CrankState} (h : s.close_day = .ok t) :
    t = { s with day_state := 2
                 distribution_count := s.distribution_count + 1 } := by
  unfold CrankState.close_day at h
  split at h
  · exact (Except.ok.inj h).symm
  · exact absurd h (by simp)

/-- A successful payment phase debits the vault by the payout, adds it to
daily_distributed, and respects a positive daily cap. -/
theorem payPhase_ok_spec {config : DistributionConfig} {cs : CrankState}
    {vault payout : Nat} {cs' : CrankState} {vault' : Nat}
    (h : payPhase config cs vault payout = .ok (cs', vault')) :
    cs' = { cs with daily_distributed := cs.daily_distributed + payout }
    ∧ vault' = vault - payout
    ∧ payout ≤ vault
    ∧ (0 < payout → 0 < config.daily_cap_lamports →
        cs.daily_distributed + payout ≤ config.daily_cap_lamports) := by
  unfold payPhase at h
  repeat' split at h
  all_goals simp_all

/-- A successful dust phase adds the dust to carry_over and reports the
payout/dust pair verbatim. -/
theorem dustPhase_ok_spec {cs : CrankState} {vault : Nat} {pd : Nat × Nat}
    {out : DistOut} (h : dustPhase cs vault pd = .ok out) :
    out = { crank := { cs with carry_over := cs.carry_over + pd.2 }
            vault := vault, payout := pd.1, dust := pd.2 } := by
  unfold dustPhase at h
  repeat' split at h
  all_goals simp_all

/-- Full characterization of a successful DistributeToInvestor call in terms
of the pure payout calculator. -/
theorem distributeToInvestor_ok_spec {config : DistributionConfig}
    {cs : CrankState} {bal tot vault fee : Nat} {out : DistOut}
    (h : distributeToInvestor config cs bal tot vault fee = .ok out) :
    out.crank = { cs with
        daily_distributed := cs.daily_distributed +
          (calculate_investor_payout bal tot fee config.min_payout_lamports).1
        carry_over := cs.carry_over +
          (calculate_investor_payout bal tot fee config.min_payout_lamports).2 }
    ∧ out.vault = vault -
        (calculate_investor_payout bal tot fee config.min_payout_lamports).1
    ∧ (calculate_investor_payout bal tot fee config.min_payout_lamports).1 ≤ vault
    ∧ out.payout =
        (calculate_investor_payout bal tot fee config.min_payout_lamports).1
    ∧ out.dust =
        (calculate_investor_payout bal tot fee config.min_payout_lamports).2
    ∧ (0 < (calculate_investor_payout bal tot fee config.min_payout_lamports).1 →
        0 < config.daily_cap_lamports →
        cs.daily_distributed +
            (calculate_investor_payout bal tot fee config.min_payout_lamports).1
          ≤ config.daily_cap_lamports)
    ∧ cs.is_day_in_progress = true := by
  unfold distributeToInvestor at h
  split at h
  case isTrue hip =>
    split at h
    case h_1 e heq => exact absurd h (by simp)
    case h_2 cs' vault' heq =>
      obtain ⟨hcs, hv, hle, hcap⟩ := payPhase_ok_spec heq
      have hout := dustPhase_ok_spec h
      subst hcs hv hout
      refine ⟨by simp, by simp, hle, by simp, by simp, hcap, hip⟩
  case isFalse => exact absurd h (by simp)

/-- When a positive payout would push daily_distributed past a positive cap,
the payment phase fails: with the cap-exceeded error when the sum fits in
u64, with the overflow error otherwise. -/
theorem payPhase_cap_error {config : DistributionConfig} {cs : CrankState}
    {vault payout : Nat}
    (hp : 0 < payout) (hcap : 0 < config.daily_cap_lamports)
    (hover : config.daily_cap_lamports < cs.daily_distributed + payout) :
    (cs.daily_distributed + payout < U64 →
       payPhase config cs vault payout = .error .DailyCapExceeded)
    ∧ (U64 ≤ cs.daily_distributed + payout →
       payPhase config cs vault payout = .error .MathOverflow) := by
  unfold payPhase
  rw [if_pos hp, if_pos hcap]
  constructor
  · intro hlt
    rw [if_pos hlt, if_neg (by omega)]
  · intro hge
    rw [if_neg (by omega)]

/-- A payment-phase error is the distribute call's result. -/
theorem distribute_error_of_payPhase {config : DistributionConfig}
    {cs : CrankState} {bal tot vault fee : Nat} {e : ErrorCode}
    (hip : cs.is_day_in_progress = true)
    (heq : payPhase config cs vault
      (calculate_investor_payout bal tot fee config.min_payout_lamports).1
        = .error e) :
    distributeToInvestor config cs bal tot vault fee = .error e := by
  unfold distributeToInvestor
  rw [hip]
  simp only [if_true]
  rw [heq]

/-- A successful pageAdvance is the cursor advance plus the page event built
from the advanced state. -/
theorem pageAdvance_ok {config : DistributionConfig} {cs2 : CrankState}
    {lt qf : Nat} {params : DistributionParams} {now : Int}
    {cs' : CrankState} {ev : InvestorPayoutPage}
    (h : pageAdvance config cs2 lt qf params now = .ok (cs', ev)) :
    cs' = { cs2 with pagination_cursor := cs2.pagination_cursor + 1
                     investors_processed_today :=
                       cs2.investors_processed_today + params.investors_count }
    ∧ ev = mkPageEvent config cs' lt qf params now := by
  unfold pageAdvance at h
  split at h
  case h_1 e heq => exact absurd h (by simp)
  case h_2 cs3 heq =>
    have h3 := advance_cursor_ok heq
    subst h3
    injection h with hpair
    injection hpair with h1 h2
    subst h1
    subst h2
    exact ⟨rfl, rfl⟩

/-- Any successful crank page call emits the page event built from the final
state, and never increases daily_distributed (it is reset to 0 or kept). -/
theorem crankHandle_ok_spec {config : DistributionConfig} {cs0 : CrankState}
    {lt bf qf mint : Nat} {params : DistributionParams} {now : Int}
    {cs' : CrankState} {ev : InvestorPayoutPage}
    (h : crankHandle config cs0 lt bf qf mint params now = .ok (cs', ev)) :
    ev = mkPageEvent config cs' lt qf params now
    ∧ (cs'.daily_distributed = 0
       ∨ cs'.daily_distributed = cs0.daily_distributed) := by
  unfold crankHandle at h
  split at h
  case h_1 => exact absurd h (by simp)
  case h_2 cs2 heq =>
    have hdd2 : cs2.daily_distributed = 0
        ∨ cs2.daily_distributed = cs0.daily_distributed := by
      split at heq
      · have h2 := Except.ok.inj heq
        subst h2
        unfold reinit
        split
        · left; rfl
        · right; rfl
      · split at heq
        · exact absurd heq (by simp)
        · have h2 := start_new_day_ok heq
          left
          rw [h2]
    repeat' split at h
    all_goals (try exact absurd h (by simp))
    all_goals
      obtain ⟨hcs', hev⟩ := pageAdvance_ok h
    all_goals
      refine ⟨hev, ?_⟩
    all_goals
      rw [hcs']
    all_goals
      simpa using hdd2

/-- With an in-progress day whose last timestamp is nonzero, the crank
handler neither re-initializes nor re-opens: it is exactly its pagination
and fee-computation tail on the unchanged state. -/
theorem crankHandle_inprogress_eq (config : DistributionConfig)
    (cs : CrankState) (lt bf qf mint : Nat) (params : DistributionParams)
    (now : Int) (hip : cs.day_state = 1)
    (hlast : cs.last_distribution_timestamp ≠ 0) :
    crankHandle config cs lt bf qf mint params now =
      (if params.page_index ≠ cs.pagination_cursor then
         .error .InvalidPaginationCursor
       else if bf ≠ 0 then .error .BaseFeesDetected
       else if qf = 0 then .error .NoFeesToClaim
       else if mint ≠ config.quote_mint then .error .InvalidPosition
       else if pageInvestorFeeQuote config lt qf + cs.carry_over < U64 then
         if 0 < config.daily_cap_lamports then
           if cs.daily_distributed ≤ config.daily_cap_lamports then
             if 0 < config.daily_cap_lamports - cs.daily_distributed then
               pageAdvance config cs lt qf params now
             else .error .DailyCapExceeded
           else .error .DailyCapExceeded
         else pageAdvance config cs lt qf params now
       else .error .MathOverflow) := by
  unfold crankHandle
  rw [show reinit cs = cs from by unfold reinit; rw [if_neg hlast]]
  rw [show cs.is_day_in_progress = true from by
        simp [CrankState.is_day_in_progress, hip]]
  simp

/-- The actual payout and the dust of calculate_investor_payout always sum
to the pre-dust computed payout. -/
theorem calculate_sum (bal tot fee minp : Nat) :
    (calculate_investor_payout bal tot fee minp).1
      + (calculate_investor_payout bal tot fee minp).2
      = payout_of fee (weight_bps_of bal tot) := by
  unfold calculate_investor_payout
  split <;> simp

/-- C1: the claim says a crank page call on a Closed day with the 86400 s
cooldown elapsed opens a new day (Closed is the precondition for the next
cycle).  The code instead rejects every crank call while day_state is
Closed: at the state c1cs (closed, last opened at time 1000), called at
time 87400 (exactly 86400 s later, so can_start_new_day holds) with
otherwise valid inputs, the handler fails with DayAlreadyClosed and no new
day opens.  Since nothing ever resets day_state from 2, Closed is a dead
end, contradicting the periodic design the cooldown logic exists for. -/
theorem c1_closed_day_rejects_crank :
    c1cs.can_start_new_day 87400 = true
    ∧ crankHandle c1cfg c1cs 1000 0 100 7 ⟨0, 1, false⟩ 87400
        = .error .DayAlreadyClosed :=
  ⟨by decide, rfl⟩

/-- C2: the claimed conservation law fails on the code.  A complete day at
config c2cfg (min_payout 50, full investor share): open with quote fees 100
and carry_over 0; the single investor (balance 100 of 1000 locked) computes
payout 10 < 50, so 0 is transferred and 10 is recorded as dust into
carry_over; close transfers the full remaining vault (100) to the creator.
Sum of payouts (0) + sum of dust (10) + creator remainder (100) = 110,
while quote fees at open + carry_over in = 100: the dust both stays in the
vault (reaching the creator) and is counted into carry_over, and carry_over
is never drawn down, so the claimed equation does not hold. -/
theorem c2_conservation_violated :
    crankHandle c2cfg CrankState.fresh 1000 0 100 7 ⟨0, 1, true⟩ 100
        = .ok (c2cs1, c2ev)
    ∧ c2ev.investor_fee_quote = 100
    ∧ distributeToInvestor c2cfg c2cs1 100 1000 100 100
        = .ok ⟨c2cs2, 100, 0, 10⟩
    ∧ routeCreatorRemainder c2cs2 100 = .ok (c2cs3, 0, 100)
    ∧ 0 + 10 + 100 ≠ 100 + 0 :=
  ⟨rfl, rfl, rfl, rfl, by decide⟩

/-- C3 counterexample: with y0_allocation = 1 and total_locked = 7 the
mathematical quotient floor(7 * 10000 / 1) = 70000 exceeds u16::MAX, and
the `as u16` cast in the handler wraps it to 4464: the successful page call
reports f_locked_bps = 4464, not 70000 as the claim requires. -/
theorem c3_f_locked_truncation :
    crankHandle c3xcfg c3xcs 7 0 10 7 ⟨0, 1, false⟩ 20 = .ok (c3xcs', c3xev)
    ∧ c3xev.f_locked_bps = 4464
    ∧ 7 * 10000 / c3xcfg.y0_allocation = 70000
    ∧ (4464 : Nat) ≠ 70000 :=
  ⟨rfl, rfl, by decide, by decide⟩

/-- C3 (amended): every successful page call reports
f_locked_bps = floor(total_locked * 10000 / y0_allocation) mod 2^16 when
y0_allocation > 0 (and 0 otherwise) — equal to the untruncated quotient
exactly when that quotient is below 2^16 — and
eligible_investor_share_bps = min(investor_fee_share_bps, f_locked_bps). -/
theorem c3_f_locked_amended (config : DistributionConfig) (cs0 : CrankState)
    (lt bf qf mint : Nat) (params : DistributionParams) (now : Int)
    (cs' : CrankState) (ev : InvestorPayoutPage)
    (h : crankHandle config cs0 lt bf qf mint params now = .ok (cs', ev)) :
    ev.f_locked_bps
      = (if 0 < config.y0_allocation then
          lt * 10000 / config.y0_allocation % U16 else 0)
    ∧ (0 < config.y0_allocation → lt * 10000 / config.y0_allocation < U16 →
        ev.f_locked_bps = lt * 10000 / config.y0_allocation)
    ∧ ev.eligible_investor_share_bps
        = min config.investor_fee_share_bps ev.f_locked_bps := by
  obtain ⟨hev, -⟩ := crankHandle_ok_spec h
  subst hev
  refine ⟨rfl, ?_, rfl⟩
  intro hy hlt
  simp [mkPageEvent, pageFLockedBps, if_pos hy, Nat.mod_eq_of_lt hlt]

/-- C3 witness: a nominal page call (total_locked 500, y0 1000) reports
the exact f_locked_bps 5000 and the min-capped eligible share. -/
theorem c3_f_locked_amended_witness :
    c3wev.f_locked_bps = 5000
    ∧ c3wev.eligible_investor_share_bps
        = min c3wcfg.investor_fee_share_bps c3wev.f_locked_bps :=
  ⟨((c3_f_locked_amended c3wcfg c3xcs 500 0 100 7 ⟨0, 1, false⟩ 600 c3wcs'
      c3wev rfl).2.1 (by decide) (by decide)).trans (by decide),
   (c3_f_locked_amended c3wcfg c3xcs 500 0 100 7 ⟨0, 1, false⟩ 600 c3wcs'
      c3wev rfl).2.2⟩

/-- C4 counterexample: with cap = u64::MAX, daily_distributed = u64::MAX
(which satisfies the invariant) and a computed payout of 2, the sum
daily_distributed + payout overflows u64, so the blocked per-investor
payout fails with MathOverflow — not with the cap-exceeded error the claim
requires (no transfer is issued either way). -/
theorem c4_cap_overflow :
    c4xcs.daily_distributed ≤ c4xcfg.daily_cap_lamports
    ∧ c4xcfg.daily_cap_lamports < c4xcs.daily_distributed
        + (calculate_investor_payout 1 1 2 c4xcfg.min_payout_lamports).1
    ∧ distributeToInvestor c4xcfg c4xcs 1 1 100 2 = .error .MathOverflow
    ∧ ErrorCode.MathOverflow ≠ ErrorCode.DailyCapExceeded :=
  ⟨by decide, by decide, rfl, by decide⟩

/-- C4 (amended): for every configuration with daily_cap > 0,
daily_distributed <= daily_cap is preserved by day-open, page, per-investor
payout and close; a per-investor payout that would push daily_distributed
past the cap fails with no transfer — with the cap-exceeded error when
daily_distributed + payout fits in u64, and with the overflow error
otherwise. -/
theorem c4_cap_invariant_amended (config : DistributionConfig)
    (hcap : 0 < config.daily_cap_lamports) :
    (∀ (cs : CrankState) (now : Int) (cs' : CrankState),
       cs.start_new_day now = .ok cs' →
       cs'.daily_distributed ≤ config.daily_cap_lamports)
    ∧ (∀ (cs : CrankState) (lt bf qf mint : Nat) (params : DistributionParams)
         (now : Int) (cs' : CrankState) (ev : InvestorPayoutPage),
       cs.daily_distributed ≤ config.daily_cap_lamports →
       crankHandle config cs lt bf qf mint params now = .ok (cs', ev) →
       cs'.daily_distributed ≤ config.daily_cap_lamports)
    ∧ (∀ (cs : CrankState) (bal tot vault fee : Nat) (out : DistOut),
       cs.daily_distributed ≤ config.daily_cap_lamports →
       distributeToInvestor config cs bal tot vault fee = .ok out →
       out.crank.daily_distributed ≤ config.daily_cap_lamports)
    ∧ (∀ (cs : CrankState) (vault : Nat) (cs' : CrankState) (v r : Nat),
       cs.daily_distributed ≤ config.daily_cap_lamports →
       routeCreatorRemainder cs vault = .ok (cs', v, r) →
       cs'.daily_distributed ≤ config.daily_cap_lamports)
    ∧ (∀ (cs : CrankState) (bal tot vault fee : Nat),
       cs.is_day_in_progress = true →
       0 < (calculate_investor_payout bal tot fee config.min_payout_lamports).1 →
       config.daily_cap_lamports < cs.daily_distributed
         + (calculate_investor_payout bal tot fee config.min_payout_lamports).1 →
       (cs.daily_distributed
           + (calculate_investor_payout bal tot fee config.min_payout_lamports).1
           < U64 →
         distributeToInvestor config cs bal tot vault fee
           = .error .DailyCapExceeded)
       ∧ (U64 ≤ cs.daily_distributed
           + (calculate_investor_payout bal tot fee config.min_payout_lamports).1 →
         distributeToInvestor config cs bal tot vault fee
           = .error .MathOverflow)) := by
  refine ⟨?_, ?_, ?_, ?_, ?_⟩
  · intro cs now cs' h
    rw [start_new_day_ok h]
    exact Nat.zero_le _
  · intro cs lt bf qf mint params now cs' ev hpre h
    obtain ⟨-, hdd⟩ := crankHandle_ok_spec h
    rcases hdd with hdd | hdd <;> omega
  · intro cs bal tot vault fee out hpre h
    obtain ⟨hcrank, -, -, -, -, hcapok, -⟩ := distributeToInvestor_ok_spec h
    rw [hcrank]
    rcases Nat.eq_zero_or_pos
        (calculate_investor_payout bal tot fee config.min_payout_lamports).1
      with hz | hz
    · simp [hz, hpre]
    · simpa using hcapok hz hcap
  · intro cs vault cs' v r hpre h
    unfold routeCreatorRemainder at h
    split at h
    · split at h
      · exact absurd h (by simp)
      · rename_i cs2 heq
        injection h with hpair
        injection hpair with h1 h2
        subst h1
        rw [close_day_ok heq]
        exact hpre
    · exact absurd h (by simp)
  · intro cs bal tot vault fee hip hp hover
    obtain ⟨hc1, hc2⟩ := payPhase_cap_error hp hcap hover
    exact ⟨fun hlt => distribute_error_of_payPhase hip (hc1 hlt),
           fun hge => distribute_error_of_payPhase hip (hc2 hge)⟩

/-- C4 witness: the cap 10 configuration reopens a day, and the opened
state's daily_distributed (0) respects the cap. -/
theorem c4_cap_invariant_amended_witness :
    c4wopen.daily_distributed ≤ c4wcfg.daily_cap_lamports :=
  (c4_cap_invariant_amended c4wcfg (by decide)).1 c4wcs 90000 c4wopen rfl

/-- C5 counterexample: a state with day_state = 1 (in progress) at cursor 5
whose last_distribution_timestamp is 0 is re-initialized by the handler's
init-if-needed block, so a page call with index 0 ≠ 5 is nevertheless
accepted (after an implicit re-open), and the resulting cursor is 1, not 6:
the claim fails for this in-progress state. -/
theorem c5_zero_timestamp_page :
    c5xcs.day_state = 1
    ∧ (⟨0, 2, false⟩ : DistributionParams).page_index ≠ c5xcs.pagination_cursor
    ∧ crankHandle c5xcfg c5xcs 5 0 40 7 ⟨0, 2, false⟩ 777 = .ok (c5xcs', c5xev) :=
  ⟨rfl, by decide, rfl⟩

/-- C5 (amended): for every in-progress day whose last_distribution_time is
nonzero (any day opened at a nonzero clock time), a page call succeeds only
if its index equals pagination_cursor exactly (any other index fails with
the pagination error), and on acceptance the cursor increases by exactly 1
and investors_processed_today by the page's investor count. -/
theorem c5_cursor_amended (config : DistributionConfig) (cs : CrankState)
    (lt bf qf mint : Nat) (params : DistributionParams) (now : Int)
    (hip : cs.day_state = 1) (hlast : cs.last_distribution_timestamp ≠ 0) :
    (params.page_index ≠ cs.pagination_cursor →
       crankHandle config cs lt bf qf mint params now
         = .error .InvalidPaginationCursor)
    ∧ (∀ (cs' : CrankState) (ev : InvestorPayoutPage),
       crankHandle config cs lt bf qf mint params now = .ok (cs', ev) →
       params.page_index = cs.pagination_cursor
       ∧ cs'.pagination_cursor = cs.pagination_cursor + 1
       ∧ cs'.investors_processed_today
           = cs.investors_processed_today + params.investors_count) := by
  rw [crankHandle_inprogress_eq config cs lt bf qf mint params now hip hlast]
  constructor
  · intro hp
    rw [if_pos hp]
  · intro cs' ev h
    repeat' split at h
    all_goals (try exact absurd h (by simp))
    all_goals
      obtain ⟨hcs', -⟩ := pageAdvance_ok h
    all_goals
      subst hcs'
    all_goals
      refine ⟨by omega, by simp, by simp⟩

/-- C5 witness: on a genuinely opened in-progress day at cursor 2, a page
call with index 3 fails with the pagination error. -/
theorem c5_cursor_amended_witness :
    (⟨3, 1, false⟩ : DistributionParams).page_index ≠ c5wcs.pagination_cursor
    ∧ crankHandle c5wcfg c5wcs 10 0 10 7 ⟨3, 1, false⟩ 600
        = .error .InvalidPaginationCursor :=
  ⟨by decide,
   (c5_cursor_amended c5wcfg c5wcs 10 0 10 7 ⟨3, 1, false⟩ 600 (by decide)
      (by decide)).1 (by decide)⟩

/-- C6 counterexample: at a state with current_day = u32::MAX whose
cooldown has elapsed (last = 1000, now = 87400), the day-counter checked
increment overflows, so start_new_day fails with MathOverflow instead of
succeeding as the claim requires. -/
theorem c6_day_counter_overflow :
    c6xcs.can_start_new_day 87400 = true
    ∧ c6xcs.last_distribution_timestamp ≠ 0
    ∧ c6xcs.start_new_day 87400 = .error .MathOverflow :=
  ⟨by decide, by decide, rfl⟩

/-- C6 (amended): with last_distribution_time ≠ 0, opening fails with the
too-frequent error exactly when now − last < 86400; when the cooldown has
elapsed (including exactly 86400) or last = 0, opening succeeds with the
reset-and-opened state — provided current_day + 1 < 2^32; at
current_day = u32::MAX the checked day increment fails instead. -/
theorem c6_cooldown_amended (cs : CrankState) (now : Int) :
    (cs.last_distribution_timestamp ≠ 0 →
       now - cs.last_distribution_timestamp < 86400 →
       cs.start_new_day now = .error .DistributionTooFrequent)
    ∧ ((86400 ≤ now - cs.last_distribution_timestamp
        ∨ cs.last_distribution_timestamp = 0) →
       cs.current_day + 1 < U32 →
       cs.start_new_day now = .ok
         { cs with last_distribution_timestamp := now
                   current_day := cs.current_day + 1
                   pagination_cursor := 0
                   investors_processed_today := 0
                   daily_distributed := 0
                   day_state := 1 }) := by
  constructor
  · intro h0 hlt
    have hcan : cs.can_start_new_day now = false := by
      unfold CrankState.can_start_new_day
      simp only [Bool.or_eq_false_iff, decide_eq_false_iff_not,
        beq_eq_false_iff_ne]
      exact ⟨by omega, h0⟩
    unfold CrankState.start_new_day
    rw [hcan]
    simp
  · intro hc hday
    have hcan : cs.can_start_new_day now = true := by
      unfold CrankState.can_start_new_day
      rcases hc with hc | hc
      · simp [hc]
      · simp [hc]
    unfold CrankState.start_new_day
    rw [hcan]
    simp [hday]

/-- C6 witness: from a state last opened at time 1000, opening at time 1000
fails with the too-frequent error, and opening at time 87400 (exactly
86400 s later) succeeds with the opened state. -/
theorem c6_cooldown_amended_witness :
    c6wcs.start_new_day 1000 = .error .DistributionTooFrequent
    ∧ c6wcs.start_new_day 87400 = .ok c6wopen :=
  ⟨(c6_cooldown_amended c6wcs 1000).1 (by decide) (by decide),
   (c6_cooldown_amended c6wcs 87400).2 (by decide) (by decide)⟩

/-- C7 counterexample: for investor_balance = u64::MAX, total_locked = 1,
fee pool 10000 and min_payout 0, the claimed formulas give pre-dust payout
10000 * floor(u64::MAX * 10000 / 1) / 10000 = u64::MAX * 10000, but the
code's `as u64` casts wrap and it returns 2^64 − 10000: the formulas do not
hold for all input magnitudes. -/
theorem c7_weight_truncation :
    calculate_investor_payout 18446744073709551615 1 10000 0
      = (18446744073709541616, 0)
    ∧ 10000 * (18446744073709551615 * 10000 / 1) / 10000
      ≠ 18446744073709541616 :=
  ⟨rfl, by decide⟩

/-- C7 (amended): whenever investor_balance ≤ total_locked (the pro-rata
regime, where weight_bps ≤ 10000 and the quotients fit in u64) and the fee
pool is a u64 value, the pre-dust payout (actual payout + dust) equals
floor(fee * weight_bps / 10000) with
weight_bps = floor(balance * 10000 / total), exactly; outside that regime
the `as u64` casts truncate (see the counterexample).  The concrete
examples of the claim hold: balances 100/300/600 of 1000 with pool 1000
give 100/300/600, and balance 1 of 3 with pool 100 gives 33
(weight_bps = 3333). -/
theorem c7_payout_amended :
    (∀ (bal tot fee minp : Nat), bal ≤ tot → fee < U64 →
       (calculate_investor_payout bal tot fee minp).1
         + (calculate_investor_payout bal tot fee minp).2
         = fee * (if 0 < tot then bal * 10000 / tot else 0) / 10000)
    ∧ calculate_investor_payout 100 1000 1000 0 = (100, 0)
    ∧ calculate_investor_payout 300 1000 1000 0 = (300, 0)
    ∧ calculate_investor_payout 600 1000 1000 0 = (600, 0)
    ∧ calculate_investor_payout 1 3 100 0 = (33, 0)
    ∧ (1 * 10000 / 3 : Nat) = 3333 := by
  refine ⟨?_, rfl, rfl, rfl, rfl, by decide⟩
  intro bal tot fee minp hbt hfee
  have hwle : (if 0 < tot then bal * 10000 / tot else 0) ≤ 10000 := by
    split
    · rename_i ht
      have h1 : bal * 10000 ≤ tot * 10000 := Nat.mul_le_mul_right 10000 hbt
      have h2 : bal * 10000 / tot ≤ tot * 10000 / tot := Nat.div_le_div_right h1
      have h3 : tot * 10000 / tot = 10000 := Nat.mul_div_cancel_left 10000 ht
      omega
    · exact Nat.zero_le _
  have hw : weight_bps_of bal tot = (if 0 < tot then bal * 10000 / tot else 0) := by
    unfold weight_bps_of
    split
    · rename_i ht
      rw [if_pos ht] at hwle
      refine Nat.mod_eq_of_lt ?_
      have h10 : (10000 : Nat) < U64 := by decide
      omega
    · rfl
  have hple : payout_of fee (weight_bps_of bal tot)
      = fee * weight_bps_of bal tot / 10000 := by
    unfold payout_of
    apply Nat.mod_eq_of_lt
    have h1 : fee * weight_bps_of bal tot ≤ fee * 10000 :=
      Nat.mul_le_mul_left fee (by rw [hw]; exact hwle)
    have h2 : fee * weight_bps_of bal tot / 10000 ≤ fee * 10000 / 10000 :=
      Nat.div_le_div_right h1
    have h3 : fee * 10000 / 10000 = fee := Nat.mul_div_cancel fee (by omega)
    omega
  rw [calculate_sum, hple, hw]

/-- C7 witness: the pro-rata formula instantiated at balance 100 of 1000
with pool 1000. -/
theorem c7_payout_amended_witness :
    (calculate_investor_payout 100 1000 1000 0).1
      + (calculate_investor_payout 100 1000 1000 0).2
      = 1000 * (if 0 < (1000 : Nat) then 100 * 10000 / 1000 else 0) / 10000 :=
  c7_payout_amended.1 100 1000 1000 0 (by decide) (by decide)

/-- C8 counterexample: a computed payout of 100 (≥ min_payout 1) is not
issued in full when the daily cap (50) would be exceeded: the call fails
with DailyCapExceeded and transfers nothing, so a computed payout at or
above min_payout does not guarantee full issuance as the claim states. -/
theorem c8_cap_blocks_full_payout :
    c8xcfg.min_payout_lamports
      ≤ (calculate_investor_payout 1 1 100 c8xcfg.min_payout_lamports).1
    ∧ distributeToInvestor c8xcfg c8xcs 1 1 100 100
        = .error .DailyCapExceeded :=
  ⟨by decide, rfl⟩

/-- C8 (amended): on every successful per-investor payout call, a computed
pre-dust payout strictly below min_payout yields a transfer of exactly 0
(the vault is untouched), the full computed value as dust, and that full
dust amount added to the persisted carry_over; a computed payout at or
above min_payout yields the full amount transferred with zero dust and
carry_over unchanged.  (A payout at or above min_payout does not guarantee
success: the daily-cap check can fail the call with no transfer.) -/
theorem c8_dust_amended (config : DistributionConfig) (cs : CrankState)
    (bal tot vault fee : Nat) (out : DistOut)
    (h : distributeToInvestor config cs bal tot vault fee = .ok out) :
    ((calculate_investor_payout bal tot fee config.min_payout_lamports).1
       + (calculate_investor_payout bal tot fee config.min_payout_lamports).2
       < config.min_payout_lamports →
     out.payout = 0 ∧ out.vault = vault
     ∧ out.dust
         = (calculate_investor_payout bal tot fee config.min_payout_lamports).1
           + (calculate_investor_payout bal tot fee config.min_payout_lamports).2
     ∧ out.crank.carry_over = cs.carry_over + out.dust)
    ∧ (config.min_payout_lamports ≤
         (calculate_investor_payout bal tot fee config.min_payout_lamports).1
         + (calculate_investor_payout bal tot fee config.min_payout_lamports).2 →
       out.payout
         = (calculate_investor_payout bal tot fee config.min_payout_lamports).1
           + (calculate_investor_payout bal tot fee config.min_payout_lamports).2
       ∧ out.dust = 0
       ∧ out.vault = vault - out.payout
       ∧ out.crank.carry_over = cs.carry_over) := by
  obtain ⟨hcrank, hvault, -, hpay, hdust, -, -⟩ := distributeToInvestor_ok_spec h
  have hsum := calculate_sum bal tot fee config.min_payout_lamports
  constructor
  · intro hlt
    have hplt : payout_of fee (weight_bps_of bal tot)
        < config.min_payout_lamports := by omega
    have hpd : calculate_investor_payout bal tot fee config.min_payout_lamports
        = (0, payout_of fee (weight_bps_of bal tot)) := by
      unfold calculate_investor_payout
      rw [if_pos hplt]
    have h1 : (calculate_investor_payout bal tot fee
        config.min_payout_lamports).1 = 0 := by rw [hpd]
    have h2 : (calculate_investor_payout bal tot fee
        config.min_payout_lamports).2
        = payout_of fee (weight_bps_of bal tot) := by rw [hpd]
    refine ⟨?_, ?_, ?_, ?_⟩
    · rw [hpay, h1]
    · rw [hvault, h1]
      omega
    · rw [hdust, h1, h2]
      omega
    · rw [hcrank]
      simp [hdust]
  · intro hge
    have hpge : config.min_payout_lamports
        ≤ payout_of fee (weight_bps_of bal tot) := by omega
    have hpd : calculate_investor_payout bal tot fee config.min_payout_lamports
        = (payout_of fee (weight_bps_of bal tot), 0) := by
      unfold calculate_investor_payout
      rw [if_neg (by omega)]
    have h1 : (calculate_investor_payout bal tot fee
        config.min_payout_lamports).1
        = payout_of fee (weight_bps_of bal tot) := by rw [hpd]
    have h2 : (calculate_investor_payout bal tot fee
        config.min_payout_lamports).2 = 0 := by rw [hpd]
    refine ⟨?_, ?_, ?_, ?_⟩
    · rw [hpay]
      omega
    · rw [hdust, h2]
    · rw [hvault, hpay]
    · rw [hcrank]
      simp [h2]

/-- C8 witness: the dust path at config c8wcfg — computed payout 10 below
min_payout 50 yields payout 0, untouched vault, dust 10 and carry_over
increased from 1 to 11. -/
theorem c8_dust_amended_witness :
    c8wout.payout = 0 ∧ c8wout.vault = 100
    ∧ c8wout.dust
        = (calculate_investor_payout 100 1000 100 c8wcfg.min_payout_lamports).1
          + (calculate_investor_payout 100 1000 100 c8wcfg.min_payout_lamports).2
    ∧ c8wout.crank.carry_over = c8wcs.carry_over + c8wout.dust :=
  (c8_dust_amended c8wcfg c8wcs 100 1000 100 100 c8wout rfl).1 (by decide)

/-- C9: a crank page call with zero available quote fees is never accepted,
for every configuration, crank state, inputs and page index; on the nominal
path (in-progress day, matching cursor, zero base fees, matching mint) the
failure is the distinct NoFeesToClaim error. -/
theorem c9_zero_quote_never_accepts :
    (∀ (config : DistributionConfig) (cs : CrankState) (lt bf mint : Nat)
       (params : DistributionParams) (now : Int),
       isErr (crankHandle config cs lt bf 0 mint params now) = true)
    ∧ crankHandle c9cfg c9cs 1000 0 0 7 ⟨0, 1, false⟩ 500
        = .error .NoFeesToClaim := by
  refine ⟨?_, rfl⟩
  intro config cs lt bf mint params now
  unfold crankHandle
  split
  · rfl
  · split
    · rfl
    · split
      · rfl
      · simp [isErr]

/-- C10: every initialization that passes validation stores
min_payout_lamports = DEFAULT_MIN_PAYOUT_LAMPORTS (10000) when the request
is 0, and the requested value verbatim otherwise. -/
theorem c10_min_payout_default (p : InitializeDistributionConfigParams)
    (cfg : DistributionConfig)
    (h : initializeDistributionConfig p = .ok cfg) :
    cfg.min_payout_lamports =
      (if p.min_payout_lamports = 0 then DEFAULT_MIN_PAYOUT_LAMPORTS
       else p.min_payout_lamports) := by
  unfold initializeDistributionConfig at h
  repeat' split at h
  all_goals cases h
  all_goals simp_all

/-- C10 witness: the parameters c10p (requested min payout 0) pass
validation and store the default 10000. -/
theorem c10_min_payout_default_witness :
    c10cfg.min_payout_lamports =
      (if c10p.min_payout_lamports = 0 then DEFAULT_MIN_PAYOUT_LAMPORTS
       else c10p.min_payout_lamports) :=
  c10_min_payout_default c10p c10cfg rfl

end StarFee
